import Mathlib

/-!
Verification of the launch-configuration scripts of the `ik_benchmarking`
repository (`launch/start_ik_benchmarking.launch.py` and
`launch/start_ik_benchmarking_clients.launch.py`).

The Python sources are shallowly embedded:
  * Python `str.split`, `str.startswith`, `str` comparison and `"_".join`
    are embedded as executable functions over `List Char` / `String`
    with Python's semantics (code-point based, non-overlapping leftmost
    separator matching).
  * Parsed YAML data is the inductive `YValue` (`null`, strings, integers
    and string-keyed mappings); Python's `dict.get` returning `None`
    both for an absent key and for a stored `None` is `pyGetN`.
  * Exceptions (`ValueError`, `KeyError`, `AttributeError`, `TypeError`)
    and `exit(1)` are `Except String` errors.
  * The external launch framework actions (`Node`, `TimerAction`,
    `DeclareLaunchArgument`, `LaunchDescription`) are a small inductive
    process-descriptor datatype; the external `MoveItConfigsBuilder`
    outputs are opaque parameter markers recording the data they were
    built from; `get_package_share_directory` is an uninterpreted
    function argument `share_dir`.
-/

namespace IkBenchmarking

/-- Python `s.split(sep)` for a single-character separator `sep`,
over the code-point list of `s`.  `"".split(sep) = [""]` and separators
at the ends produce empty pieces, exactly as in Python. -/
def splitOnChar (sep : Char) : List Char → List (List Char)
  | [] => [[]]
  | c :: cs =>
    if c == sep then [] :: splitOnChar sep cs
    else
      match splitOnChar sep cs with
      | [] => [[c]]
      | t :: ts => (c :: t) :: ts

/-- Python `s.split(sep)` for a two-character separator `c1 c2`
(used for `":="`), with Python's leftmost non-overlapping matching. -/
def splitOnSep2 (c1 c2 : Char) : List Char → List (List Char)
  | [] => [[]]
  | [c] => [[c]]
  | a :: b :: cs =>
    if a == c1 && b == c2 then [] :: splitOnSep2 c1 c2 cs
    else
      match splitOnSep2 c1 c2 (b :: cs) with
      | [] => [[a]]
      | t :: ts => (a :: t) :: ts

/-- `startsWithList p l` is Python `l.startswith(p)` on code-point lists. -/
def startsWithList : List Char → List Char → Bool
  | [], _ => true
  | _ :: _, [] => false
  | p :: ps, c :: cs => p == c && startsWithList ps cs

/-- Python `s.startswith(pre)`. -/
def pyStartsWith (s pre : String) : Bool :=
  startsWithList pre.toList s.toList

/-- Python `<` on strings: lexicographic comparison of code points. -/
def pyStrLtChars : List Char → List Char → Bool
  | [], [] => false
  | [], _ :: _ => true
  | _ :: _, [] => false
  | a :: xs, b :: ys =>
    if a < b then true
    else if b < a then false
    else pyStrLtChars xs ys

/-- Python `a < b` on strings. -/
def pyStrLt (a b : String) : Bool :=
  pyStrLtChars a.toList b.toList

/-- Python `"_".join(parts)`. -/
def joinUnderscore : List String → String
  | [] => ""
  | [a] => a
  | a :: rest => a ++ "_" ++ joinUnderscore rest

/-- Python `s.split("_")` as a list of strings. -/
def pySplitUnderscore (s : String) : List String :=
  (splitOnChar '_' s.toList).map String.mk

/-- Python `s.split(":=")` as a list of strings. -/
def pySplitAssign (s : String) : List String :=
  (splitOnSep2 ':' '=' s.toList).map String.mk

/-- Python `l[1]` on the result of a split; the call sites only use it
when the element exists, so the default is never observed there. -/
def pyIndex1 (l : List String) : String :=
  l.getD 1 ""

/-! ## Parsed YAML data -/

/-- A parsed YAML value as the Python scripts see it: `None`, a string,
an integer, or a string-keyed mapping. -/
inductive YValue : Type where
  | null : YValue
  | str : String → YValue
  | int : Int → YValue
  | dict : List (String × YValue) → YValue

/-- A parsed YAML mapping (Python `dict`). -/
abbrev YDict := List (String × YValue)

/-- First-match association lookup on a mapping. -/
def lookupY : YDict → String → Option YValue
  | [], _ => none
  | (k, v) :: rest, key => if k == key then some v else lookupY rest key

/-- Python `d.get(key)`: `None` both when the key is absent and when the
stored value is `None` — the two are indistinguishable to the caller. -/
def pyGetN (d : YDict) (key : String) : Option YValue :=
  match lookupY d key with
  | some YValue.null => none
  | r => r

/-- Python truthiness of a parsed YAML value
(`None`, `""`, `0` and `{}` are falsy). -/
def pyTruthy : YValue → Bool
  | YValue.null => false
  | YValue.str s => !(s == "")
  | YValue.int n => !(n == 0)
  | YValue.dict d => !d.isEmpty

/-! ## `load_benchmarking_config` (start_ik_benchmarking.launch.py, lines 36-84)

File-system access (`os.path.join`, `open`, `yaml.safe_load`) is outside the
embedding: `load_benchmarking_config` takes the parsed YAML mapping directly. -/

/-- The inner helper `get_config_data(key, parent_data=None)`:
`source_data = parent_data if parent_data else config_data` (Python
truthiness!), then `source_data.get(key)`; a `None` result raises
`ValueError(f"Missing required configuration key {key}")`.  Calling `.get`
on a non-mapping raises `AttributeError`. -/
def get_config_data (config_data : YDict) (key : String)
    (parent_data : Option YValue) : Except String YValue :=
  let source_data : YValue :=
    match parent_data with
    | none => YValue.dict config_data
    | some v => if pyTruthy v then v else YValue.dict config_data
  match source_data with
  | YValue.dict d =>
    match pyGetN d key with
    | none => Except.error ("Missing required configuration key " ++ key)
    | some v => Except.ok v
  | _ => Except.error "AttributeError"

/-- Python `v.get(key)` for the unchecked lookups (lines 65-71): raises
`AttributeError` when `v` is not a mapping, and otherwise returns the
(possibly `None`) value without any presence check. -/
def pyDotGet (v : YValue) (key : String) : Except String (Option YValue) :=
  match v with
  | YValue.dict d => Except.ok (pyGetN d key)
  | _ => Except.error "AttributeError"

/-- The dictionary returned by `load_benchmarking_config` (lines 74-84):
exactly nine fields.  A field obtained through an unchecked `.get` holds
`YValue.null` when the sub-key was absent, exactly as the Python dictionary
holds `None`. -/
structure LoadedConfig : Type where
  moveit_config_pkg : YValue
  move_group : YValue
  sample_size : YValue
  ik_solver_1 : YValue
  ik_solver_2 : YValue
  ik_solver_3 : YValue
  ik_solver_1_kinematics_file : YValue
  ik_solver_2_kinematics_file : YValue
  ik_solver_3_kinematics_file : YValue

/-- `load_benchmarking_config` after YAML parsing: the sequence of
`get_config_data` calls (raising on a missing key) followed by the
unchecked `.get('name')` / `.get('kinematics_file')` lookups, in source
order. -/
def load_benchmarking_config (config_data : YDict) :
    Except String LoadedConfig :=
  match get_config_data config_data "moveit_config_pkg" none with
  | Except.error e => Except.error e
  | Except.ok moveit_config_pkg =>
  match get_config_data config_data "move_group" none with
  | Except.error e => Except.error e
  | Except.ok move_group =>
  match get_config_data config_data "sample_size" none with
  | Except.error e => Except.error e
  | Except.ok sample_size =>
  match get_config_data config_data "ik_solvers" none with
  | Except.error e => Except.error e
  | Except.ok ik_solvers_data =>
  match get_config_data config_data "ik_solver_1" (some ik_solvers_data) with
  | Except.error e => Except.error e
  | Except.ok ik_solver_1_data =>
  match get_config_data config_data "ik_solver_2" (some ik_solvers_data) with
  | Except.error e => Except.error e
  | Except.ok ik_solver_2_data =>
  match get_config_data config_data "ik_solver_3" (some ik_solvers_data) with
  | Except.error e => Except.error e
  | Except.ok ik_solver_3_data =>
  match pyDotGet ik_solver_1_data "name" with
  | Except.error e => Except.error e
  | Except.ok ik_solver_1 =>
  match pyDotGet ik_solver_2_data "name" with
  | Except.error e => Except.error e
  | Except.ok ik_solver_2 =>
  match pyDotGet ik_solver_3_data "name" with
  | Except.error e => Except.error e
  | Except.ok ik_solver_3 =>
  match pyDotGet ik_solver_1_data "kinematics_file" with
  | Except.error e => Except.error e
  | Except.ok k1 =>
  match pyDotGet ik_solver_2_data "kinematics_file" with
  | Except.error e => Except.error e
  | Except.ok k2 =>
  match pyDotGet ik_solver_3_data "kinematics_file" with
  | Except.error e => Except.error e
  | Except.ok k3 =>
    Except.ok
      { moveit_config_pkg := moveit_config_pkg
        move_group := move_group
        sample_size := sample_size
        ik_solver_1 := ik_solver_1.getD YValue.null
        ik_solver_2 := ik_solver_2.getD YValue.null
        ik_solver_3 := ik_solver_3.getD YValue.null
        ik_solver_1_kinematics_file := k1.getD YValue.null
        ik_solver_2_kinematics_file := k2.getD YValue.null
        ik_solver_3_kinematics_file := k3.getD YValue.null }

/-- Python subscripting `benchmarking_config[key]` on the returned
nine-key dictionary: a `KeyError` for any other key. -/
def LoadedConfig.getItem (c : LoadedConfig) (key : String) :
    Except String YValue :=
  if key == "moveit_config_pkg" then Except.ok c.moveit_config_pkg
  else if key == "move_group" then Except.ok c.move_group
  else if key == "sample_size" then Except.ok c.sample_size
  else if key == "ik_solver_1" then Except.ok c.ik_solver_1
  else if key == "ik_solver_2" then Except.ok c.ik_solver_2
  else if key == "ik_solver_3" then Except.ok c.ik_solver_3
  else if key == "ik_solver_1_kinematics_file" then
    Except.ok c.ik_solver_1_kinematics_file
  else if key == "ik_solver_2_kinematics_file" then
    Except.ok c.ik_solver_2_kinematics_file
  else if key == "ik_solver_3_kinematics_file" then
    Except.ok c.ik_solver_3_kinematics_file
  else Except.error ("KeyError: " ++ key)

/-- A value used where Python calls `.split` on it: a non-string raises
`AttributeError`. -/
def pyAsStr : YValue → Except String String
  | YValue.str s => Except.ok s
  | _ => Except.error "AttributeError"

/-- A value used as an `os.path.join` component: a non-string raises
`TypeError`. -/
def pyPathComponent : YValue → Except String String
  | YValue.str s => Except.ok s
  | _ => Except.error "TypeError"

/-! ## `get_cmdline_argument` and `get_robot_name` -/

/-- `get_cmdline_argument(arg_name)` (lines 20-24): scan `sys.argv` (the
`argv` parameter here) for the first entry starting with `arg_name + ":="`
and return `arg.split(":=")[1]`; return `'0'` when no entry matches. -/
def get_cmdline_argument (argv : List String) (arg_name : String) : String :=
  match argv with
  | [] => "0"
  | arg :: rest =>
    if pyStartsWith arg (arg_name ++ ":=") then pyIndex1 (pySplitAssign arg)
    else get_cmdline_argument rest arg_name

/-- `get_robot_name` (lines 87-102).  `exit(1)` is the error value
`"SystemExit: 1"` (the preceding `print` is I/O and not modelled).
`package_name_pre` is the source's two-token package-name front
`'_'.join(parts[:2])`. -/
def get_robot_name (moveit_config_pkg : String) : Except String String :=
  let parts := pySplitUnderscore moveit_config_pkg
  if parts.length < 2 then Except.error "SystemExit: 1"
  else
    let package_name_pre := joinUnderscore (parts.take 2)
    if package_name_pre == "moveit_resources" then
      Except.ok (joinUnderscore (parts.take 3))
    else
      Except.ok (parts.getD 0 "")

/-! ## The launch description model -/

/-- One entry of a node's `parameters` list.  The three `moveit_config`
attributes are opaque outputs of the external `MoveItConfigsBuilder`,
recorded with the data the builder was given (the robot name and the
kinematics-file path); the fourth form is a literal parameter mapping. -/
inductive Param : Type where
  | robotDescription : String → String → Param
  | robotDescriptionSemantic : String → String → Param
  | robotDescriptionKinematics : String → String → Param
  | dict : List (String × YValue) → Param

/-- A `launch_ros.actions.Node` descriptor. -/
structure NodeSpec : Type where
  package : String
  executable : String
  output : String
  parameters : List Param

/-- A launch action: a node, a `TimerAction` (period in seconds, exact
since the source literal `2.0` is an integer-valued float), or a
`DeclareLaunchArgument` with its default value. -/
inductive LaunchAction : Type where
  | node : NodeSpec → LaunchAction
  | timer : ℚ → List LaunchAction → LaunchAction
  | declareArg : String → String → LaunchAction

/-- A `launch.LaunchDescription`. -/
structure LaunchDescription : Type where
  actions : List LaunchAction

/-- The body of `generate_launch_description` after the configuration has
been loaded (lines 119-181), with the command-line solver number already
extracted into `ik_solver_value` and the external
`get_package_share_directory` left uninterpreted as `share_dir`.
`os.path.join(a, "config", b)` is `a ++ "/config/" ++ b`.  Failure points,
in source order: the `.split` in `get_robot_name` on a non-string package
value, `exit(1)` inside `get_robot_name`, the subscript
`benchmarking_config[kinematics_file_key]`, the path join on a non-string
kinematics value, and the subscript `benchmarking_config[ik_solver_key]`
in the `print` call. -/
def build_launch (share_dir : String → String) (ik_solver_value : String)
    (benchmarking_config : LoadedConfig) : Except String LaunchDescription :=
  match pyAsStr benchmarking_config.moveit_config_pkg with
  | Except.error e => Except.error e
  | Except.ok pkg_str =>
  match get_robot_name pkg_str with
  | Except.error e => Except.error e
  | Except.ok robot_name =>
    let ik_solver_key :=
      if pyStrLt "0" ik_solver_value then "ik_solver_" ++ ik_solver_value
      else ""
    let kinematics_file_key :=
      if pyStrLt "0" ik_solver_value then
        "ik_solver_" ++ ik_solver_value ++ "_kinematics_file"
      else ""
    match benchmarking_config.getItem kinematics_file_key with
    | Except.error e => Except.error e
    | Except.ok kin_value =>
    match pyPathComponent kin_value with
    | Except.error e => Except.error e
    | Except.ok kin_file =>
      let kin_path := share_dir pkg_str ++ "/config/" ++ kin_file
      match benchmarking_config.getItem ik_solver_key with
      | Except.error e => Except.error e
      | Except.ok solver_value =>
        let server_node : NodeSpec :=
          { package := "ik_benchmarking"
            executable := "ik_benchmarking_server"
            output := "screen"
            parameters :=
              [ Param.robotDescription robot_name kin_path
              , Param.robotDescriptionSemantic robot_name kin_path
              , Param.robotDescriptionKinematics robot_name kin_path
              , Param.dict
                  [ ("move_group", benchmarking_config.move_group)
                  , ("sample_size", benchmarking_config.sample_size) ] ] }
        let client_node : NodeSpec :=
          { package := "ik_benchmarking"
            executable := "ik_benchmarking_client"
            output := "screen"
            parameters :=
              [ Param.robotDescription robot_name kin_path
              , Param.robotDescriptionSemantic robot_name kin_path
              , Param.robotDescriptionKinematics robot_name kin_path
              , Param.dict
                  [ ("move_group", benchmarking_config.move_group)
                  , ("sample_size", benchmarking_config.sample_size)
                  , ("ik_solver", solver_value) ] ] }
        Except.ok
          { actions :=
              [ LaunchAction.node server_node
              , LaunchAction.timer 2 [LaunchAction.node client_node]
              , LaunchAction.declareArg "ik_solver_number" "0" ] }

/-- `generate_launch_description` (lines 105-181): read the solver number
from the command line, load the configuration, then build the two node
descriptors; the (pure) `DeclareLaunchArgument` created at line 107 is the
last list entry of the result. -/
def generate_launch_description (share_dir : String → String)
    (argv : List String) (config_data : YDict) :
    Except String LaunchDescription :=
  let ik_solver_value := get_cmdline_argument argv "ik_solver_number"
  match load_benchmarking_config config_data with
  | Except.error e => Except.error e
  | Except.ok benchmarking_config =>
    build_launch share_dir ik_solver_value benchmarking_config

/-! ## `start_ik_benchmarking_clients.launch.py` -/

/-- The clients script's robot-name rule (line 45):
`moveit_config_pkg_name.split("_")[0]`. -/
def clients_robot_name (moveit_config_pkg_name : String) : String :=
  (pySplitUnderscore moveit_config_pkg_name).getD 0 ""

/-- The mutable locals of the clients script's argument scan
(lines 38-47). -/
structure ClientsArgs : Type where
  robot_name : String
  moveit_config_pkg_name : String
  kinematics_file_name : String

/-- The clients script's `for arg in sys.argv` loop (lines 42-47): every
matching entry overwrites the locals (the last one wins), starting from
the defaults `"iiwa"` / `"iiwa_moveit_config"` / `"kinematics.yaml"`. -/
def clients_scan_args (argv : List String) : ClientsArgs :=
  argv.foldl
    (fun st arg =>
      if pyStartsWith arg "moveit_config_pkg:=" then
        let p := pyIndex1 (pySplitAssign arg)
        { st with moveit_config_pkg_name := p, robot_name := clients_robot_name p }
      else if pyStartsWith arg "kinematics_file:=" then
        { st with kinematics_file_name := pyIndex1 (pySplitAssign arg) }
      else st)
    { robot_name := "iiwa"
      moveit_config_pkg_name := "iiwa_moveit_config"
      kinematics_file_name := "kinematics.yaml" }

/-! ## Spec-side definitions

These follow the specification's words, not the code, and exist to be
compared with the code-derived definitions above. -/

/-- The spec's "standard naming convention" for MoveIt configuration
packages, read off the forms it cites (`robot_moveit_config`,
`moveit_resources_robot_moveit_config`): a non-empty robot identifier
followed by the suffix `_moveit_config`. -/
def followsStandardNamingConvention (pkg : String) : Bool :=
  "_moveit_config".toList.isSuffixOf pkg.toList
    && decide ("_moveit_config".length < pkg.length)

/-- The characters strictly after the first occurrence of the
two-character separator `c1 c2`, or `none` when the separator does not
occur (non-overlapping leftmost matching, as in Python). -/
def textAfterFirstSep2 (c1 c2 : Char) : List Char → Option (List Char)
  | [] => none
  | [_] => none
  | a :: b :: cs =>
    if a == c1 && b == c2 then some cs
    else textAfterFirstSep2 c1 c2 (b :: cs)

/-- The characters up to (excluding) the first occurrence of the
two-character separator `c1 c2`, or the whole list when it does not
occur. -/
def textUntilSep2 (c1 c2 : Char) : List Char → List Char
  | [] => []
  | [c] => [c]
  | a :: b :: cs =>
    if a == c1 && b == c2 then []
    else a :: textUntilSep2 c1 c2 (b :: cs)

/-! ## Concrete example data -/

/-- First solver entry of the example configuration. -/
def exampleSolver1 : YDict :=
  [ ("name", YValue.str "KDL")
  , ("kinematics_file", YValue.str "kdl_kinematics.yaml") ]

/-- Second solver entry of the example configuration. -/
def exampleSolver2 : YDict :=
  [ ("name", YValue.str "TRAC_IK")
  , ("kinematics_file", YValue.str "trac_ik_kinematics.yaml") ]

/-- Third solver entry of the example configuration. -/
def exampleSolver3 : YDict :=
  [ ("name", YValue.str "pick_ik")
  , ("kinematics_file", YValue.str "pick_ik_kinematics.yaml") ]

/-- The `ik_solvers` sub-mapping of the example configuration. -/
def exampleSolvers : YDict :=
  [ ("ik_solver_1", YValue.dict exampleSolver1)
  , ("ik_solver_2", YValue.dict exampleSolver2)
  , ("ik_solver_3", YValue.dict exampleSolver3) ]

/-- A well-formed benchmarking configuration, shaped like the repository's
`ik_benchmarking.yaml`. -/
def exampleYaml : YDict :=
  [ ("moveit_config_pkg", YValue.str "rx200_moveit_config")
  , ("move_group", YValue.str "interbotix_arm")
  , ("sample_size", YValue.int 10000)
  , ("ik_solvers", YValue.dict exampleSolvers) ]

/-- The nine-field dictionary `load_benchmarking_config` returns on
`exampleYaml`. -/
def exampleLoaded : LoadedConfig :=
  { moveit_config_pkg := YValue.str "rx200_moveit_config"
    move_group := YValue.str "interbotix_arm"
    sample_size := YValue.int 10000
    ik_solver_1 := YValue.str "KDL"
    ik_solver_2 := YValue.str "TRAC_IK"
    ik_solver_3 := YValue.str "pick_ik"
    ik_solver_1_kinematics_file := YValue.str "kdl_kinematics.yaml"
    ik_solver_2_kinematics_file := YValue.str "trac_ik_kinematics.yaml"
    ik_solver_3_kinematics_file := YValue.str "pick_ik_kinematics.yaml" }

/-- A configuration identical to `exampleYaml` except that the first
solver entry lacks the `name` sub-key. -/
def exampleYamlNoName : YDict :=
  [ ("moveit_config_pkg", YValue.str "rx200_moveit_config")
  , ("move_group", YValue.str "interbotix_arm")
  , ("sample_size", YValue.int 10000)
  , ("ik_solvers", YValue.dict
      [ ("ik_solver_1", YValue.dict
          [ ("kinematics_file", YValue.str "kdl_kinematics.yaml") ])
      , ("ik_solver_2", YValue.dict
          [ ("name", YValue.str "TRAC_IK")
          , ("kinematics_file", YValue.str "trac_ik_kinematics.yaml") ])
      , ("ik_solver_3", YValue.dict
          [ ("name", YValue.str "pick_ik")
          , ("kinematics_file", YValue.str "pick_ik_kinematics.yaml") ]) ]) ]

/-- The launch description produced from `exampleYaml` with
`ik_solver_number:=1` on the command line and the identity
package-share-directory resolver. -/
def exampleLaunch : LaunchDescription :=
  { actions :=
      [ LaunchAction.node
          { package := "ik_benchmarking"
            executable := "ik_benchmarking_server"
            output := "screen"
            parameters :=
              [ Param.robotDescription "rx200"
                  "rx200_moveit_config/config/kdl_kinematics.yaml"
              , Param.robotDescriptionSemantic "rx200"
                  "rx200_moveit_config/config/kdl_kinematics.yaml"
              , Param.robotDescriptionKinematics "rx200"
                  "rx200_moveit_config/config/kdl_kinematics.yaml"
              , Param.dict
                  [ ("move_group", YValue.str "interbotix_arm")
                  , ("sample_size", YValue.int 10000) ] ] }
      , LaunchAction.timer 2
          [ LaunchAction.node
              { package := "ik_benchmarking"
                executable := "ik_benchmarking_client"
                output := "screen"
                parameters :=
                  [ Param.robotDescription "rx200"
                      "rx200_moveit_config/config/kdl_kinematics.yaml"
                  , Param.robotDescriptionSemantic "rx200"
                      "rx200_moveit_config/config/kdl_kinematics.yaml"
                  , Param.robotDescriptionKinematics "rx200"
                      "rx200_moveit_config/config/kdl_kinematics.yaml"
                  , Param.dict
                      [ ("move_group", YValue.str "interbotix_arm")
                      , ("sample_size", YValue.int 10000)
                      , ("ik_solver", YValue.str "KDL") ] ] } ]
      , LaunchAction.declareArg "ik_solver_number" "0" ] }

/-! ## Helper lemmas -/

theorem string_data_append (a b : String) : (a ++ b).data = a.data ++ b.data := by
  cases a
  cases b
  rfl

/-- Appending `"_" ++ b` strictly lengthens a string, so the result is
never the original string. -/
theorem underscore_append_ne (a b : String) : a ++ "_" ++ b ≠ a := by
  intro h
  have hd := congrArg String.data h
  rw [string_data_append, string_data_append] at hd
  have hu : ("_" : String).data = ['_'] := rfl
  rw [hu] at hd
  have hlen := congrArg List.length hd
  simp only [List.length_append, List.length_cons, List.length_nil] at hlen
  omega

/-- `startsWithList p l = true` means `l` literally extends `p`. -/
theorem startsWithList_decomp :
    ∀ (p l : List Char), startsWithList p l = true → ∃ r, l = p ++ r
  | [], l, _ => ⟨l, rfl⟩
  | p :: ps, [], h => by simp [startsWithList] at h
  | p :: ps, c :: cs, h => by
    simp only [startsWithList, Bool.and_eq_true, beq_iff_eq] at h
    obtain ⟨rfl, h2⟩ := h
    obtain ⟨r, hr⟩ := startsWithList_decomp ps cs h2
    exact ⟨r, by rw [hr]; rfl⟩

/-- A list that contains the two-character separator has a first
occurrence. -/
theorem textAfter_exists (c1 c2 : Char) :
    ∀ (l1 l2 : List Char),
      ∃ t, textAfterFirstSep2 c1 c2 (l1 ++ c1 :: c2 :: l2) = some t
  | [], l2 => ⟨l2, by simp [textAfterFirstSep2]⟩
  | [a], l2 => by
    by_cases h : (a == c1 && c1 == c2) = true
    · exact ⟨c2 :: l2, by simp [textAfterFirstSep2, h]⟩
    · exact ⟨l2, by simp [textAfterFirstSep2, h]⟩
  | a :: b :: l1, l2 => by
    by_cases h : (a == c1 && b == c2) = true
    · exact ⟨l1 ++ c1 :: c2 :: l2, by simp [textAfterFirstSep2, h]⟩
    · obtain ⟨t, ht⟩ := textAfter_exists c1 c2 (b :: l1) l2
      exact ⟨t, by simpa [textAfterFirstSep2, h] using ht⟩

/-- Without an occurrence of the separator, `textUntilSep2` is the whole
list. -/
theorem textUntil_of_after_none (c1 c2 : Char) :
    ∀ l : List Char, textAfterFirstSep2 c1 c2 l = none →
      textUntilSep2 c1 c2 l = l
  | [], _ => rfl
  | [c], _ => rfl
  | a :: b :: cs, h => by
    by_cases hm : (a == c1 && b == c2) = true
    · simp [textAfterFirstSep2, hm] at h
    · simp only [textAfterFirstSep2, hm, if_false] at h
      have ih := textUntil_of_after_none c1 c2 (b :: cs) (by simpa using h)
      simp [textUntilSep2, hm, ih]

/-- Without an occurrence of the separator, the split is one piece. -/
theorem split_of_after_none (c1 c2 : Char) :
    ∀ l : List Char, textAfterFirstSep2 c1 c2 l = none →
      splitOnSep2 c1 c2 l = [l]
  | [], _ => rfl
  | [c], _ => rfl
  | a :: b :: cs, h => by
    by_cases hm : (a == c1 && b == c2) = true
    · simp [textAfterFirstSep2, hm] at h
    · have ih := split_of_after_none c1 c2 (b :: cs)
        (by simpa [textAfterFirstSep2, hm] using h)
      simp [splitOnSep2, hm, ih]

/-- With a first occurrence of the separator, the split is the piece
before it followed by the split of the remainder. -/
theorem split_of_after_some (c1 c2 : Char) :
    ∀ (l t : List Char), textAfterFirstSep2 c1 c2 l = some t →
      splitOnSep2 c1 c2 l =
        textUntilSep2 c1 c2 l :: splitOnSep2 c1 c2 t
  | [], t, h => by simp [textAfterFirstSep2] at h
  | [c], t, h => by simp [textAfterFirstSep2] at h
  | a :: b :: cs, t, h => by
    by_cases hm : (a == c1 && b == c2) = true
    · simp only [textAfterFirstSep2, hm, if_true, Option.some.injEq] at h
      subst h
      simp [splitOnSep2, textUntilSep2, hm]
    · have ih := split_of_after_some c1 c2 (b :: cs) t
        (by simpa [textAfterFirstSep2, hm] using h)
      simp [splitOnSep2, textUntilSep2, hm, ih]

/-- The first piece of any split is the text before the first separator
occurrence. -/
theorem split_head (c1 c2 : Char) (l : List Char) :
    ∃ rest, splitOnSep2 c1 c2 l = textUntilSep2 c1 c2 l :: rest := by
  cases h : textAfterFirstSep2 c1 c2 l with
  | none =>
    exact ⟨[], by rw [split_of_after_none c1 c2 l h,
      textUntil_of_after_none c1 c2 l h]⟩
  | some t => exact ⟨splitOnSep2 c1 c2 t, split_of_after_some c1 c2 l t h⟩

/-- For an entry that starts with `arg_name ++ ":="`, the extracted value
`arg.split(":=")[1]` is the text strictly between the first separator
occurrence and the following one (or the end of the entry). -/
theorem cmdline_head_match (arg_name arg : String)
    (h : pyStartsWith arg (arg_name ++ ":=") = true) :
    ∃ t, textAfterFirstSep2 ':' '=' arg.toList = some t ∧
      pyIndex1 (pySplitAssign arg) = String.mk (textUntilSep2 ':' '=' t) := by
  obtain ⟨r, hr⟩ := startsWithList_decomp _ _ h
  have htl : (arg_name ++ ":=").toList = arg_name.toList ++ [':', '='] := by
    show (arg_name ++ ":=").data = arg_name.data ++ [':', '=']
    rw [string_data_append]
  rw [htl] at hr
  have hr2 : arg.toList = arg_name.toList ++ ':' :: '=' :: r := by
    rw [hr]
    simp
  obtain ⟨t, ht⟩ := textAfter_exists ':' '=' arg_name.toList r
  rw [← hr2] at ht
  refine ⟨t, ht, ?_⟩
  obtain ⟨rest, hhead⟩ := split_head ':' '=' t
  have hsplit := split_of_after_some ':' '=' arg.toList t ht
  have harg : arg.toList = arg.data := rfl
  rw [harg] at hsplit
  simp [pyIndex1, pySplitAssign, String.toList, hsplit, hhead, List.getD]

/-- No entry of `argv` matches: `get_cmdline_argument` returns `"0"`. -/
theorem cmdline_no_match (arg_name : String) :
    ∀ argv : List String,
      (∀ a ∈ argv, pyStartsWith a (arg_name ++ ":=") = false) →
      get_cmdline_argument argv arg_name = "0"
  | [], _ => rfl
  | a :: rest, h => by
    have ha := h a (by simp)
    have ih := cmdline_no_match arg_name rest (fun x hx => h x (by simp [hx]))
    simp [get_cmdline_argument, ha, ih]

/-- The first matching entry of `argv` determines the result of
`get_cmdline_argument`. -/
theorem cmdline_first_match (arg_name : String) :
    ∀ (front : List String) (arg : String) (back : List String),
      (∀ a ∈ front, pyStartsWith a (arg_name ++ ":=") = false) →
      pyStartsWith arg (arg_name ++ ":=") = true →
      ∃ t, textAfterFirstSep2 ':' '=' arg.toList = some t ∧
        get_cmdline_argument (front ++ arg :: back) arg_name =
          String.mk (textUntilSep2 ':' '=' t)
  | [], arg, back, _, hm => by
    obtain ⟨t, ht, he⟩ := cmdline_head_match arg_name arg hm
    exact ⟨t, ht, by simp [get_cmdline_argument, hm, he]⟩
  | a :: front, arg, back, hfront, hm => by
    have ha := hfront a (by simp)
    have ih := cmdline_first_match arg_name front arg back
      (fun x hx => hfront x (by simp [hx])) hm
    simpa [get_cmdline_argument, ha] using ih

/-! ## Claim theorems -/

/-- Claim C1: for every well-formed configuration mapping — the four
required top-level keys present, three solver sub-entries each carrying
`name` and `kinematics_file` — `load_benchmarking_config` succeeds and
returns the nine-field dictionary whose values are exactly the
configuration values, unmodified. -/
theorem load_benchmarking_config_wellformed
    (cfg sd d1 d2 d3 : YDict) (v1 v2 v3 n1 n2 n3 k1 k2 k3 : YValue)
    (h1 : pyGetN cfg "moveit_config_pkg" = some v1)
    (h2 : pyGetN cfg "move_group" = some v2)
    (h3 : pyGetN cfg "sample_size" = some v3)
    (h4 : pyGetN cfg "ik_solvers" = some (YValue.dict sd))
    (h5 : pyGetN sd "ik_solver_1" = some (YValue.dict d1))
    (h6 : pyGetN sd "ik_solver_2" = some (YValue.dict d2))
    (h7 : pyGetN sd "ik_solver_3" = some (YValue.dict d3))
    (hn1 : pyGetN d1 "name" = some n1)
    (hn2 : pyGetN d2 "name" = some n2)
    (hn3 : pyGetN d3 "name" = some n3)
    (hk1 : pyGetN d1 "kinematics_file" = some k1)
    (hk2 : pyGetN d2 "kinematics_file" = some k2)
    (hk3 : pyGetN d3 "kinematics_file" = some k3) :
    load_benchmarking_config cfg =
      Except.ok
        { moveit_config_pkg := v1
          move_group := v2
          sample_size := v3
          ik_solver_1 := n1
          ik_solver_2 := n2
          ik_solver_3 := n3
          ik_solver_1_kinematics_file := k1
          ik_solver_2_kinematics_file := k2
          ik_solver_3_kinematics_file := k3 } := by
  cases sd with
  | nil => simp [pyGetN, lookupY] at h5
  | cons hd tl =>
    simp [load_benchmarking_config, get_config_data, pyTruthy, pyDotGet,
      h1, h2, h3, h4, h5, h6, h7, hn1, hn2, hn3, hk1, hk2, hk3]

/-- Witness for C1: `load_benchmarking_config` on the concrete
well-formed `exampleYaml` returns exactly its nine values. -/
theorem load_benchmarking_config_wellformed_witness :
    load_benchmarking_config exampleYaml = Except.ok exampleLoaded :=
  load_benchmarking_config_wellformed exampleYaml exampleSolvers
    exampleSolver1 exampleSolver2 exampleSolver3
    (YValue.str "rx200_moveit_config") (YValue.str "interbotix_arm")
    (YValue.int 10000) (YValue.str "KDL") (YValue.str "TRAC_IK")
    (YValue.str "pick_ik") (YValue.str "kdl_kinematics.yaml")
    (YValue.str "trac_ik_kinematics.yaml")
    (YValue.str "pick_ik_kinematics.yaml")
    rfl rfl rfl rfl rfl rfl rfl rfl rfl rfl rfl rfl rfl

/-- Counterexample to claim C2 as stated: in this configuration the
required key `name` of `ik_solver_1` is missing, yet loading succeeds
(the solver name silently becomes `None`) instead of failing with an
error naming `name`. -/
theorem missing_solver_name_loads_ok :
    pyGetN [("kinematics_file", YValue.str "kdl_kinematics.yaml")] "name"
        = none
    ∧ load_benchmarking_config exampleYamlNoName =
        Except.ok
          { moveit_config_pkg := YValue.str "rx200_moveit_config"
            move_group := YValue.str "interbotix_arm"
            sample_size := YValue.int 10000
            ik_solver_1 := YValue.null
            ik_solver_2 := YValue.str "TRAC_IK"
            ik_solver_3 := YValue.str "pick_ik"
            ik_solver_1_kinematics_file := YValue.str "kdl_kinematics.yaml"
            ik_solver_2_kinematics_file := YValue.str "trac_ik_kinematics.yaml"
            ik_solver_3_kinematics_file := YValue.str "pick_ik_kinematics.yaml" } :=
  ⟨rfl, rfl⟩

/-- Claim C2 (amended): the missing-key error, naming the key, is raised
exactly for the seven keys routed through `get_config_data` —
`moveit_config_pkg`, `move_group`, `sample_size`, `ik_solvers` and the
three `ik_solver_i` sub-keys — while a missing `name` or
`kinematics_file` inside a solver entry raises nothing.  Each conjunct
states the error for one checked key, under presence of the keys checked
before it. -/
theorem load_benchmarking_config_missing_key_error :
    (∀ cfg : YDict, pyGetN cfg "moveit_config_pkg" = none →
      load_benchmarking_config cfg =
        Except.error "Missing required configuration key moveit_config_pkg")
    ∧ (∀ (cfg : YDict) (v1 : YValue),
        pyGetN cfg "moveit_config_pkg" = some v1 →
        pyGetN cfg "move_group" = none →
        load_benchmarking_config cfg =
          Except.error "Missing required configuration key move_group")
    ∧ (∀ (cfg : YDict) (v1 v2 : YValue),
        pyGetN cfg "moveit_config_pkg" = some v1 →
        pyGetN cfg "move_group" = some v2 →
        pyGetN cfg "sample_size" = none →
        load_benchmarking_config cfg =
          Except.error "Missing required configuration key sample_size")
    ∧ (∀ (cfg : YDict) (v1 v2 v3 : YValue),
        pyGetN cfg "moveit_config_pkg" = some v1 →
        pyGetN cfg "move_group" = some v2 →
        pyGetN cfg "sample_size" = some v3 →
        pyGetN cfg "ik_solvers" = none →
        load_benchmarking_config cfg =
          Except.error "Missing required configuration key ik_solvers")
    ∧ (∀ (cfg sd : YDict) (v1 v2 v3 : YValue), sd ≠ [] →
        pyGetN cfg "moveit_config_pkg" = some v1 →
        pyGetN cfg "move_group" = some v2 →
        pyGetN cfg "sample_size" = some v3 →
        pyGetN cfg "ik_solvers" = some (YValue.dict sd) →
        pyGetN sd "ik_solver_1" = none →
        load_benchmarking_config cfg =
          Except.error "Missing required configuration key ik_solver_1")
    ∧ (∀ (cfg sd : YDict) (v1 v2 v3 s1 : YValue), sd ≠ [] →
        pyGetN cfg "moveit_config_pkg" = some v1 →
        pyGetN cfg "move_group" = some v2 →
        pyGetN cfg "sample_size" = some v3 →
        pyGetN cfg "ik_solvers" = some (YValue.dict sd) →
        pyGetN sd "ik_solver_1" = some s1 →
        pyGetN sd "ik_solver_2" = none →
        load_benchmarking_config cfg =
          Except.error "Missing required configuration key ik_solver_2")
    ∧ (∀ (cfg sd : YDict) (v1 v2 v3 s1 s2 : YValue), sd ≠ [] →
        pyGetN cfg "moveit_config_pkg" = some v1 →
        pyGetN cfg "move_group" = some v2 →
        pyGetN cfg "sample_size" = some v3 →
        pyGetN cfg "ik_solvers" = some (YValue.dict sd) →
        pyGetN sd "ik_solver_1" = some s1 →
        pyGetN sd "ik_solver_2" = some s2 →
        pyGetN sd "ik_solver_3" = none →
        load_benchmarking_config cfg =
          Except.error "Missing required configuration key ik_solver_3") := by
  refine ⟨?_, ?_, ?_, ?_, ?_, ?_, ?_⟩
  · intro cfg h1
    simp [load_benchmarking_config, get_config_data, h1]
  · intro cfg v1 h1 h2
    simp [load_benchmarking_config, get_config_data, h1, h2]
  · intro cfg v1 v2 h1 h2 h3
    simp [load_benchmarking_config, get_config_data, h1, h2, h3]
  · intro cfg v1 v2 v3 h1 h2 h3 h4
    simp [load_benchmarking_config, get_config_data, h1, h2, h3, h4]
  · intro cfg sd v1 v2 v3 hne h1 h2 h3 h4 h5
    cases sd with
    | nil => exact absurd rfl hne
    | cons hd tl =>
      simp [load_benchmarking_config, get_config_data, pyTruthy,
        h1, h2, h3, h4, h5]
  · intro cfg sd v1 v2 v3 s1 hne h1 h2 h3 h4 h5 h6
    cases sd with
    | nil => exact absurd rfl hne
    | cons hd tl =>
      simp [load_benchmarking_config, get_config_data, pyTruthy,
        h1, h2, h3, h4, h5, h6]
  · intro cfg sd v1 v2 v3 s1 s2 hne h1 h2 h3 h4 h5 h6 h7
    cases sd with
    | nil => exact absurd rfl hne
    | cons hd tl =>
      simp [load_benchmarking_config, get_config_data, pyTruthy,
        h1, h2, h3, h4, h5, h6, h7]

/-- Witness for the amended C2: a configuration without
`moveit_config_pkg` fails with the error naming it. -/
theorem load_benchmarking_config_missing_key_error_witness :
    load_benchmarking_config [] =
      Except.error "Missing required configuration key moveit_config_pkg" :=
  load_benchmarking_config_missing_key_error.1 [] rfl

/-- Claim C3: the robot name inferred from `"robot_moveit_config"` is
`"robot"`, and from `"moveit_resources_robot_moveit_config"` it is
`"moveit_resources_robot"`. -/
theorem get_robot_name_examples :
    get_robot_name "robot_moveit_config" = Except.ok "robot"
    ∧ get_robot_name "moveit_resources_robot_moveit_config" =
        Except.ok "moveit_resources_robot" :=
  ⟨rfl, rfl⟩

/-- Counterexample to claim C5 as stated: `"foo_bar"` does not follow
the standard naming convention the error message cites, yet
`get_robot_name` returns the robot name `"foo"` instead of exiting. -/
theorem nonstandard_name_returns_ok :
    followsStandardNamingConvention "foo_bar" = false
    ∧ get_robot_name "foo_bar" = Except.ok "foo" :=
  ⟨rfl, rfl⟩

/-- Claim C5 (amended): `get_robot_name` terminates the launch process
(exit status 1) exactly for package names with fewer than two
underscore-separated tokens; every name with at least two tokens returns
a robot name, whether or not it matches the standard convention. -/
theorem get_robot_name_exit_iff_short (pkg : String) :
    get_robot_name pkg = Except.error "SystemExit: 1" ↔
      (pySplitUnderscore pkg).length < 2 := by
  by_cases h : (pySplitUnderscore pkg).length < 2
  · simp [get_robot_name, h]
  · simp only [get_robot_name, if_neg h]
    constructor
    · intro he
      split at he <;> simp at he
    · intro hc
      exact absurd hc h

/-- Claim C6: on package names with at least two underscore-separated
tokens, `get_robot_name` follows the two-branch rule: the first three
tokens joined by `'_'` when the first two joined equal
`"moveit_resources"`, and the first token alone otherwise. -/
theorem get_robot_name_two_branch (pkg : String)
    (h : 2 ≤ (pySplitUnderscore pkg).length) :
    get_robot_name pkg =
      (if joinUnderscore ((pySplitUnderscore pkg).take 2) = "moveit_resources"
       then Except.ok (joinUnderscore ((pySplitUnderscore pkg).take 3))
       else Except.ok ((pySplitUnderscore pkg).getD 0 "")) := by
  have hlen : ¬ (pySplitUnderscore pkg).length < 2 := by omega
  by_cases hb :
      joinUnderscore ((pySplitUnderscore pkg).take 2) = "moveit_resources"
  · simp [get_robot_name, hlen, hb]
  · simp [get_robot_name, hlen, hb]

/-- Witness for C6 at the concrete package name `"rx200_moveit_config"`. -/
theorem get_robot_name_two_branch_witness :
    2 ≤ (pySplitUnderscore "rx200_moveit_config").length
    ∧ get_robot_name "rx200_moveit_config" =
        (if joinUnderscore ((pySplitUnderscore "rx200_moveit_config").take 2)
              = "moveit_resources"
         then Except.ok
            (joinUnderscore ((pySplitUnderscore "rx200_moveit_config").take 3))
         else Except.ok ((pySplitUnderscore "rx200_moveit_config").getD 0 "")) :=
  ⟨by decide, get_robot_name_two_branch "rx200_moveit_config" (by decide)⟩

/-- Claim C9: the two launch scripts infer the robot name by different
rules.  The clients script keeps only the first underscore token (so
`"moveit_resources_robot_moveit_config"` gives `"moveit"`, and a
one-token name like `"iiwa"` is accepted), whereas `get_robot_name`
gives `"moveit_resources_robot"` for the same input and exits on
one-token names; the rules agree exactly on names of at least two tokens
whose first two tokens are not `"moveit_resources"`. -/
theorem robot_name_rules_divergence :
    (clients_scan_args
        ["moveit_config_pkg:=moveit_resources_robot_moveit_config"]).robot_name
        = "moveit"
    ∧ get_robot_name "moveit_resources_robot_moveit_config" =
        Except.ok "moveit_resources_robot"
    ∧ (clients_scan_args ["moveit_config_pkg:=iiwa"]).robot_name = "iiwa"
    ∧ get_robot_name "iiwa" = Except.error "SystemExit: 1"
    ∧ (∀ pkg : String, 2 ≤ (pySplitUnderscore pkg).length →
        (get_robot_name pkg = Except.ok (clients_robot_name pkg) ↔
          joinUnderscore ((pySplitUnderscore pkg).take 2)
            ≠ "moveit_resources")) := by
  refine ⟨rfl, rfl, rfl, rfl, ?_⟩
  intro pkg hlen
  have hlt : ¬ (pySplitUnderscore pkg).length < 2 := by omega
  by_cases hb :
      joinUnderscore ((pySplitUnderscore pkg).take 2) = "moveit_resources"
  · -- the main script special-cases the two-token front; the clients
    -- script keeps only the first token, and the results always differ
    have hget : get_robot_name pkg =
        Except.ok (joinUnderscore ((pySplitUnderscore pkg).take 3)) := by
      simp [get_robot_name, hlt, hb, beq_iff_eq]
    rw [hget]
    simp only [clients_robot_name, Except.ok.injEq, ne_eq, hb,
      not_true_eq_false, iff_false]
    intro heq
    rcases hp : pySplitUnderscore pkg with _ | ⟨a, rest⟩
    · rw [hp] at hlen; simp at hlen
    rcases rest with _ | ⟨b, rest2⟩
    · rw [hp] at hlen; simp at hlen
    rw [hp] at heq
    rcases rest2 with _ | ⟨c, rest3⟩
    · simp only [List.take, joinUnderscore, List.getD, List.get?] at heq
      exact underscore_append_ne a b heq
    · simp only [List.take, joinUnderscore, List.getD, List.get?] at heq
      exact underscore_append_ne a (b ++ "_" ++ c) heq
  · have hget : get_robot_name pkg =
        Except.ok ((pySplitUnderscore pkg).getD 0 "") := by
      simp [get_robot_name, hlt, hb, beq_iff_eq]
    rw [hget]
    simp [clients_robot_name, hb]

/-- Witness for C9: at `"panda_moveit_config"` (two tokens, front not
`"moveit_resources"`) the agreement equivalence holds concretely. -/
theorem robot_name_rules_divergence_witness :
    get_robot_name "panda_moveit_config" =
        Except.ok (clients_robot_name "panda_moveit_config") ↔
      joinUnderscore ((pySplitUnderscore "panda_moveit_config").take 2)
        ≠ "moveit_resources" :=
  robot_name_rules_divergence.2.2.2.2 "panda_moveit_config" (by decide)

/-- Claim C10: `get_cmdline_argument` is total (it is a Lean function);
when no entry of the argument list starts with `arg_name ++ ":="` it
returns `"0"`, and for the first entry that does, it returns exactly the
text between the first occurrence of `":="` and the second one (or the
end of the entry) — so values themselves containing `":="` are
truncated. -/
theorem get_cmdline_argument_spec (argv : List String) (arg_name : String) :
    ((∀ a ∈ argv, pyStartsWith a (arg_name ++ ":=") = false) →
      get_cmdline_argument argv arg_name = "0")
    ∧ (∀ (front : List String) (arg : String) (back : List String),
        argv = front ++ arg :: back →
        (∀ a ∈ front, pyStartsWith a (arg_name ++ ":=") = false) →
        pyStartsWith arg (arg_name ++ ":=") = true →
        ∃ t, textAfterFirstSep2 ':' '=' arg.toList = some t ∧
          get_cmdline_argument argv arg_name =
            String.mk (textUntilSep2 ':' '=' t)) := by
  constructor
  · exact cmdline_no_match arg_name argv
  · rintro front arg back rfl hfront hm
    exact cmdline_first_match arg_name front arg back hfront hm

/-- Witness for C10: the entry `"ik_solver_number:=2:=9"` matches, the
text between the first and second `":="` is `"2"`, and the trailing
`":=9"` of the value is truncated away. -/
theorem get_cmdline_argument_spec_witness :
    ∃ t, textAfterFirstSep2 ':' '=' ("ik_solver_number:=2:=9").toList = some t
      ∧ get_cmdline_argument ["ik_solver_number:=2:=9"] "ik_solver_number" =
          String.mk (textUntilSep2 ':' '=' t) :=
  (get_cmdline_argument_spec ["ik_solver_number:=2:=9"] "ik_solver_number").2
    [] "ik_solver_number:=2:=9" [] rfl
    (fun a ha => absurd ha (List.not_mem_nil a)) (by decide)

/-- Every successful `build_launch` result has the fixed shape: an
immediate, unconditional server node, the client node wrapped in a
two-second `TimerAction`, and the `ik_solver_number` launch argument with
default `"0"`. -/
theorem build_launch_ok_shape (share_dir : String → String)
    (v : String) (bc : LoadedConfig) (ld : LaunchDescription)
    (h : build_launch share_dir v bc = Except.ok ld) :
    ∃ (rn kp : String) (sv : YValue),
      ld =
        { actions :=
            [ LaunchAction.node
                { package := "ik_benchmarking"
                  executable := "ik_benchmarking_server"
                  output := "screen"
                  parameters :=
                    [ Param.robotDescription rn kp
                    , Param.robotDescriptionSemantic rn kp
                    , Param.robotDescriptionKinematics rn kp
                    , Param.dict
                        [ ("move_group", bc.move_group)
                        , ("sample_size", bc.sample_size) ] ] }
            , LaunchAction.timer 2
                [ LaunchAction.node
                    { package := "ik_benchmarking"
                      executable := "ik_benchmarking_client"
                      output := "screen"
                      parameters :=
                        [ Param.robotDescription rn kp
                        , Param.robotDescriptionSemantic rn kp
                        , Param.robotDescriptionKinematics rn kp
                        , Param.dict
                            [ ("move_group", bc.move_group)
                            , ("sample_size", bc.sample_size)
                            , ("ik_solver", sv) ] ] } ]
            , LaunchAction.declareArg "ik_solver_number" "0" ] } := by
  simp only [build_launch] at h
  split at h
  · exact Except.noConfusion h
  · split at h
    · exact Except.noConfusion h
    · split at h
      · exact Except.noConfusion h
      · split at h
        · exact Except.noConfusion h
        · split at h
          · exact Except.noConfusion h
          · injection h with h
            subst h
            exact ⟨_, _, _, rfl⟩

/-- Claim C4: in every launch description the script returns, the client
node is scheduled only inside a timer action with period `2.0` seconds,
while the server node is declared immediately, unconditionally and with
no readiness check. -/
theorem client_delayed_two_seconds (share_dir : String → String)
    (argv : List String) (cfg : YDict) (ld : LaunchDescription)
    (h : generate_launch_description share_dir argv cfg = Except.ok ld) :
    ∃ (server client : NodeSpec),
      server.executable = "ik_benchmarking_server"
      ∧ client.executable = "ik_benchmarking_client"
      ∧ ld.actions =
          [ LaunchAction.node server
          , LaunchAction.timer 2 [LaunchAction.node client]
          , LaunchAction.declareArg "ik_solver_number" "0" ] := by
  simp only [generate_launch_description] at h
  split at h
  · exact Except.noConfusion h
  · obtain ⟨rn, kp, sv, rfl⟩ := build_launch_ok_shape _ _ _ _ h
    exact ⟨_, _, rfl, rfl, rfl⟩

/-- Witness for C4: the concrete launch description obtained from
`exampleYaml` with `ik_solver_number:=1`. -/
theorem client_delayed_two_seconds_witness :
    ∃ (server client : NodeSpec),
      server.executable = "ik_benchmarking_server"
      ∧ client.executable = "ik_benchmarking_client"
      ∧ exampleLaunch.actions =
          [ LaunchAction.node server
          , LaunchAction.timer 2 [LaunchAction.node client]
          , LaunchAction.declareArg "ik_solver_number" "0" ] :=
  client_delayed_two_seconds (fun p => p) ["ik_solver_number:=1"]
    exampleYaml exampleLaunch rfl

/-- Claim C7: both nodes receive the robot-description, semantic,
kinematics, move-group and sample-size parameters; the solver-name
parameter `ik_solver` goes to the client node only and never appears in
the server node's parameters. -/
theorem server_client_parameters (share_dir : String → String)
    (argv : List String) (cfg : YDict) (ld : LaunchDescription)
    (h : generate_launch_description share_dir argv cfg = Except.ok ld) :
    ∃ (server client : NodeSpec) (rn kp : String) (mg ss sv : YValue),
      ld.actions =
        [ LaunchAction.node server
        , LaunchAction.timer 2 [LaunchAction.node client]
        , LaunchAction.declareArg "ik_solver_number" "0" ]
      ∧ server.parameters =
          [ Param.robotDescription rn kp
          , Param.robotDescriptionSemantic rn kp
          , Param.robotDescriptionKinematics rn kp
          , Param.dict [("move_group", mg), ("sample_size", ss)] ]
      ∧ client.parameters =
          [ Param.robotDescription rn kp
          , Param.robotDescriptionSemantic rn kp
          , Param.robotDescriptionKinematics rn kp
          , Param.dict
              [("move_group", mg), ("sample_size", ss), ("ik_solver", sv)] ]
      ∧ (∀ es, Param.dict es ∈ server.parameters →
          ∀ w : YValue, ("ik_solver", w) ∉ es) := by
  simp only [generate_launch_description] at h
  split at h
  · exact Except.noConfusion h
  · obtain ⟨rn, kp, sv, rfl⟩ := build_launch_ok_shape _ _ _ _ h
    refine ⟨_, _, rn, kp, _, _, sv, rfl, rfl, rfl, ?_⟩
    intro es hes w hw
    simp only [List.mem_cons, List.not_mem_nil, or_false] at hes
    rcases hes with hes | hes | hes | hes
    · exact Param.noConfusion hes
    · exact Param.noConfusion hes
    · exact Param.noConfusion hes
    · injection hes with hes
      subst hes
      simp only [List.mem_cons, List.not_mem_nil, or_false,
        Prod.mk.injEq] at hw
      rcases hw with hw | hw
      · exact absurd hw.1 (by decide)
      · exact absurd hw.1 (by decide)

/-- Witness for C7 on the concrete launch description from
`exampleYaml`. -/
theorem server_client_parameters_witness :
    ∃ (server client : NodeSpec) (rn kp : String) (mg ss sv : YValue),
      exampleLaunch.actions =
        [ LaunchAction.node server
        , LaunchAction.timer 2 [LaunchAction.node client]
        , LaunchAction.declareArg "ik_solver_number" "0" ]
      ∧ server.parameters =
          [ Param.robotDescription rn kp
          , Param.robotDescriptionSemantic rn kp
          , Param.robotDescriptionKinematics rn kp
          , Param.dict [("move_group", mg), ("sample_size", ss)] ]
      ∧ client.parameters =
          [ Param.robotDescription rn kp
          , Param.robotDescriptionSemantic rn kp
          , Param.robotDescriptionKinematics rn kp
          , Param.dict
              [("move_group", mg), ("sample_size", ss), ("ik_solver", sv)] ]
      ∧ (∀ es, Param.dict es ∈ server.parameters →
          ∀ w : YValue, ("ik_solver", w) ∉ es) :=
  server_client_parameters (fun p => p) ["ik_solver_number:=1"]
    exampleYaml exampleLaunch rfl

/-- Claim C8: when `ik_solver_number` is absent from the argument list,
or is given the declared default `"0"`, `get_cmdline_argument` yields
`"0"`, the solver and kinematics-file keys stay empty, and
`generate_launch_description` fails with the lookup error on the
empty-string key instead of producing a launch description — the
declared default can never produce a successful launch. -/
theorem default_solver_number_never_launches :
    (∀ argv : List String,
        (∀ a ∈ argv, pyStartsWith a ("ik_solver_number" ++ ":=") = false) →
        get_cmdline_argument argv "ik_solver_number" = "0")
    ∧ (∀ rest : List String,
        get_cmdline_argument ("ik_solver_number:=0" :: rest)
          "ik_solver_number" = "0")
    ∧ (∀ (share_dir : String → String) (argv : List String) (cfg : YDict)
          (bc : LoadedConfig) (s rn : String),
        load_benchmarking_config cfg = Except.ok bc →
        bc.moveit_config_pkg = YValue.str s →
        get_robot_name s = Except.ok rn →
        get_cmdline_argument argv "ik_solver_number" = "0" →
        generate_launch_description share_dir argv cfg =
          Except.error "KeyError: ") := by
  refine ⟨cmdline_no_match "ik_solver_number", fun rest => rfl, ?_⟩
  intro share_dir argv cfg bc s rn hload hstr hrobot hdef
  have hlt : pyStrLt "0" "0" = false := rfl
  have hki : LoadedConfig.getItem bc "" = Except.error "KeyError: " := rfl
  simp only [generate_launch_description, hload, hdef, build_launch, hstr,
    pyAsStr, hrobot, hlt, Bool.false_eq_true, if_false, hki]

/-- Witness for C8: with an empty argument list and the example
configuration, the launch fails with the empty-key lookup error. -/
theorem default_solver_number_never_launches_witness :
    generate_launch_description (fun p => p) [] exampleYaml =
      Except.error "KeyError: " :=
  default_solver_number_never_launches.2.2 (fun p => p) [] exampleYaml
    exampleLoaded "rx200_moveit_config" "rx200" rfl rfl rfl rfl

end IkBenchmarking
